import Mathlib

/-!
Verification of the grid editing and placement engine of a dental-clinic
floor-plan editor.  The definitions below are a shallow embedding of the
TypeScript source: `src/types.ts` (data model), `src/constants.ts`
(grid constants), `src/components/IsoMapConstants.ts` (geometry helpers)
and `src/App.tsx` (placement, erase, move, history and inspector logic).
JavaScript numbers used as grid coordinates are modelled as `Int`
(all arithmetic in the source stays integral), optional fields as
`Option`, and the 2-dimensional tile array as a list of rows indexed
`grid[y][x]`.
-/

/-- `RoomType` enum from `src/types.ts`. -/
inductive RoomType where
  | None
  | WaitingRoom
  | OperatorySuite
  | ImagingSuite
  | StraightWall
  | Door
  | Window
deriving DecidableEq, Repr

/-- `PlacedWall` from `src/types.ts`: a structural element attached to one
edge of a cell.  `rotation` encodes the edge (0 N, 1 E, 2 S, 3 W). -/
structure PlacedWall where
  type : RoomType
  rotation : Nat
  customColor : Option String := none
deriving DecidableEq, Repr

instance : Inhabited PlacedWall := ⟨{ type := RoomType.None, rotation := 0 }⟩

/-- `InventoryItem` from `src/types.ts`.  The grid engine only carries these
lists around wholesale; the fields are never inspected by the operations
modelled here (`unitPrice` is a JS number, modelled as `Int`). -/
structure InventoryItem where
  id : String
  name : String
  quantity : Nat
  status : String
  brand : Option String := none
  sku : Option String := none
  uom : Option String := none
  unitPrice : Option Int := none
  vendor : Option String := none
  category : Option String := none
  description : Option String := none
  location : Option String := none
  tileX : Option Int := none
  tileY : Option Int := none
deriving DecidableEq, Repr

/-- `TileData` from `src/types.ts`: one grid cell. -/
structure TileData where
  x : Int
  y : Int
  roomType : RoomType
  rotation : Nat
  label : Option String := none
  customColor : Option String := none
  variantX : Option Int := none
  variantY : Option Int := none
  hasInventory : Option Bool := none
  inventoryItems : Option (List InventoryItem) := none
  placedWalls : Option (List PlacedWall) := none
deriving DecidableEq, Repr

/-- `Grid = TileData[][]`, indexed `grid[y][x]`. -/
abbrev Grid := List (List TileData)

/-- `GRID_SIZE` from `src/constants.ts`. -/
def GRID_SIZE : Nat := 15

/-- `LARGE_ROOM_SIZE` from `src/constants.ts`. -/
def LARGE_ROOM_SIZE : Nat := 5

namespace IsoMapConstants

/-- `isLargeRoomType` as exported by `src/components/IsoMapConstants.ts`:
true for all three large room kinds. -/
def isLargeRoomType (type : RoomType) : Bool :=
  type == RoomType.WaitingRoom ||
  type == RoomType.OperatorySuite ||
  type == RoomType.ImagingSuite

/-- `isStructureType` from `src/components/IsoMapConstants.ts`. -/
def isStructureType (type : RoomType) : Bool :=
  type == RoomType.StraightWall ||
  type == RoomType.Door ||
  type == RoomType.Window

/-- `getEffectiveVariant` from `src/components/IsoMapConstants.ts`: maps a
physical member offset back to the logical design offset for a given
clockwise rotation, by applying the inverse rotation about the block
center. -/
def getEffectiveVariant (vx vy : Int) (rot : Nat) : Int × Int :=
  if rot = 0 then (vx, vy)
  else
    let centerOffset : Int := (LARGE_ROOM_SIZE : Int) / 2
    let cx := vx - centerOffset
    let cy := vy - centerOffset
    let p : Int × Int :=
      if rot = 1 then (cy, -cx)
      else if rot = 2 then (-cx, -cy)
      else if rot = 3 then (-cy, cx)
      else (cx, cy)
    (p.1 + centerOffset, p.2 + centerOffset)

end IsoMapConstants

namespace App

/-- The local `isLargeRoomType` helper defined at the top of `src/App.tsx`.
Unlike the helper in `IsoMapConstants.ts` it does NOT include
`OperatorySuite`. -/
def isLargeRoomType (type : RoomType) : Bool :=
  type == RoomType.WaitingRoom ||
  type == RoomType.ImagingSuite

end App

/-- Default used to totalise out-of-range reads (the source never reads
out of range on the paths modelled here). -/
def defaultTile : TileData :=
  { x := 0, y := 0, roomType := RoomType.None, rotation := 0 }

instance : Inhabited TileData := ⟨defaultTile⟩

/-- Read `grid[y][x]`. -/
def getTileI (g : Grid) (x y : Int) : TileData :=
  if 0 ≤ x ∧ 0 ≤ y then (g.getD y.toNat []).getD x.toNat defaultTile
  else defaultTile

/-- Write `grid[y][x] = t` (no-op when out of range, mirroring the bounds
guards that precede every write in the source). -/
def setTileI (g : Grid) (x y : Int) (t : TileData) : Grid :=
  if 0 ≤ x ∧ 0 ≤ y then g.set y.toNat ((g.getD y.toNat []).set x.toNat t)
  else g

/-- A well-formed grid: `GRID_SIZE` rows of `GRID_SIZE` cells. -/
def WF (g : Grid) : Prop :=
  g.length = GRID_SIZE ∧ ∀ i, i < GRID_SIZE → (g.getD i []).length = GRID_SIZE

instance : DecidablePred WF := fun g => by
  unfold WF; infer_instance

/-- `createInitialGrid` from `src/App.tsx`: all cells `None`, rotation 0,
empty `placedWalls`. -/
def createInitialGrid : Grid :=
  (List.range GRID_SIZE).map (fun y =>
    (List.range GRID_SIZE).map (fun x =>
      { x := (x : Int), y := (y : Int), roomType := RoomType.None,
        rotation := 0, placedWalls := some [] }))

/-- The `(dx, dy)` offsets of the two nested
`for (dy...) for (dx...)` loops over a `LARGE_ROOM_SIZE` footprint. -/
def offsets : List (Int × Int) :=
  (List.range LARGE_ROOM_SIZE).flatMap (fun dy =>
    (List.range LARGE_ROOM_SIZE).map (fun dx => ((dx : Int), (dy : Int))))

/-- The in-bounds test `tx >= 0 && tx < GRID_SIZE && ty >= 0 && ty < GRID_SIZE`
guarding the footprint writes in `src/App.tsx`. -/
def inGrid (p : Int × Int) : Prop :=
  0 ≤ p.1 ∧ p.1 < (GRID_SIZE : Int) ∧ 0 ≤ p.2 ∧ p.2 < (GRID_SIZE : Int)

instance : DecidablePred inGrid := fun p => by
  unfold inGrid; infer_instance

/-- A footprint loop: visit each offset `d`, and when the cell
`pos d` is in bounds replace it by `upd d` applied to its current value.
This is the shape of every multi-cell write loop in `src/App.tsx`. -/
def writeLoop (g : Grid) (ds : List (Int × Int)) (pos : Int × Int → Int × Int)
    (upd : Int × Int → TileData → TileData) : Grid :=
  ds.foldl (fun acc d =>
    let p := pos d
    if inGrid p then
      setTileI acc p.1 p.2 (upd d (getTileI acc p.1 p.2))
    else acc) g

/-- The brush settings (`Partial<TileData>`) of `src/App.tsx`, restricted to
the fields the paint handlers read. -/
structure Brush where
  rotation : Option Nat := none
  label : Option String := none
  customColor : Option String := none
  hasInventory : Option Bool := none
deriving DecidableEq, Repr

/-- The STRUCTURE TOOL branch of `handleTileClick` in `src/App.tsx`
(walls, doors, windows), including the perimeter-only rule for cells of
large modules and the overwrite-by-edge upsert. -/
def placeStructure (g : Grid) (tool : RoomType) (x y : Int) (brush : Brush) : Grid :=
  let currentTile := getTileI g x y
  let walls := currentTile.placedWalls.getD []
  let rotationToPlace := brush.rotation.getD 0
  let isPerimeter : Bool :=
    if App.isLargeRoomType currentTile.roomType then
      let vx := currentTile.variantX.getD 0
      let vy := currentTile.variantY.getD 0
      (rotationToPlace == 0 && vy == 0) ||
      (rotationToPlace == 1 && vx == (LARGE_ROOM_SIZE : Int) - 1) ||
      (rotationToPlace == 2 && vy == (LARGE_ROOM_SIZE : Int) - 1) ||
      (rotationToPlace == 3 && vx == 0)
    else true
  if isPerimeter then
    let newWallData : PlacedWall :=
      { type := tool, rotation := rotationToPlace, customColor := brush.customColor }
    let newWalls :=
      match walls.findIdx? (fun w => w.rotation == rotationToPlace) with
      | some i => walls.set i newWallData
      | none => walls ++ [newWallData]
    setTileI g x y { currentTile with placedWalls := some newWalls }
  else g

/-- The ERASE TOOL branch of `handleTileClick` in `src/App.tsx`.
`subTarget = some i` models a `wall:i` sub-target string. -/
def eraseAt (g : Grid) (x y : Int) (subTarget : Option Nat) : Grid :=
  let currentTile := getTileI g x y
  let wallErase : Option Grid :=
    match subTarget, currentTile.placedWalls with
    | some wallIndex, some walls =>
        if wallIndex < walls.length then
          some (setTileI g x y { currentTile with placedWalls := some (walls.eraseIdx wallIndex) })
        else none
    | _, _ => none
  match wallErase with
  | some g' => g'
  | none =>
    if currentTile.roomType = RoomType.None then g
    else if App.isLargeRoomType currentTile.roomType then
      let anchor : Int × Int :=
        match currentTile.variantX, currentTile.variantY with
        | some vx, some vy => (x - vx, y - vy)
        | _, _ => ((Int.fdiv x (LARGE_ROOM_SIZE : Int)) * LARGE_ROOM_SIZE,
                   (Int.fdiv y (LARGE_ROOM_SIZE : Int)) * LARGE_ROOM_SIZE)
      let typeToErase := currentTile.roomType
      writeLoop g offsets (fun d => (anchor.1 + d.1, anchor.2 + d.2))
        (fun d old =>
          if old.roomType = typeToErase then
            { x := anchor.1 + d.1, y := anchor.2 + d.2,
              roomType := RoomType.None, rotation := 0,
              placedWalls := old.placedWalls }
          else old)
    else
      setTileI g x y
        { x := x, y := y, roomType := RoomType.None, rotation := 0,
          placedWalls := currentTile.placedWalls }

/-- The large-room branch of the ROOM TOOL in `handleTileClick`
(`src/App.tsx`): clamp the centered anchor, reject when any footprint cell
is occupied, otherwise write all members. -/
def placeLargeRoom (g : Grid) (tool : RoomType) (x y : Int) (brush : Brush) : Grid :=
  let offset : Int := (LARGE_ROOM_SIZE : Int) / 2
  let startX := max 0 (min (x - offset) ((GRID_SIZE : Int) - (LARGE_ROOM_SIZE : Int)))
  let startY := max 0 (min (y - offset) ((GRID_SIZE : Int) - (LARGE_ROOM_SIZE : Int)))
  let isBlocked := offsets.any (fun d =>
    (getTileI g (startX + d.1) (startY + d.2)).roomType != RoomType.None)
  if isBlocked then g
  else
    writeLoop g offsets (fun d => (startX + d.1, startY + d.2))
      (fun d old =>
        let isCenter := d.1 = 2 ∧ d.2 = 2
        { old with
          roomType := tool,
          rotation := brush.rotation.getD 0,
          label := if isCenter then brush.label else none,
          customColor := brush.customColor,
          variantX := some d.1,
          variantY := some d.2,
          hasInventory := some (if isCenter then brush.hasInventory.getD false else false),
          inventoryItems := none })

/-- The single-tile branch of the ROOM TOOL in `handleTileClick`
(`src/App.tsx`). -/
def placeSingleRoom (g : Grid) (tool : RoomType) (x y : Int) (brush : Brush) : Grid :=
  let tile := getTileI g x y
  if tile.roomType ≠ RoomType.None then g
  else
    setTileI g x y
      { tile with
        roomType := tool,
        rotation := brush.rotation.getD 0,
        label := brush.label,
        customColor := brush.customColor,
        variantX := none,
        variantY := none,
        hasInventory := some (brush.hasInventory.getD false),
        inventoryItems := none }

/-- The grid updater of the paint branch of `handleTileClick` in
`src/App.tsx` (the `setGrid` callback), for a non-`Select` tool. -/
def handlePaint (g : Grid) (tool : RoomType) (x y : Int) (subTarget : Option Nat)
    (brush : Brush) : Grid :=
  if IsoMapConstants.isStructureType tool then placeStructure g tool x y brush
  else if tool = RoomType.None then eraseAt g x y subTarget
  else if App.isLargeRoomType tool then placeLargeRoom g tool x y brush
  else placeSingleRoom g tool x y brush

/-- The editor state relevant to a design session: the current grid and the
two history stacks (`history`/`future` in `src/App.tsx`). -/
structure AppState where
  grid : Grid
  history : List Grid
  future : List Grid
deriving DecidableEq, Repr

/-- `pushHistory` from `src/App.tsx`: push the current grid on `history`,
clear `future`. -/
def pushHistory (s : AppState) : AppState :=
  { s with history := s.history ++ [s.grid], future := [] }

/-- The common shape of every mutating operation in `src/App.tsx`:
`pushHistory()` followed by `setGrid(f)`. -/
def applyEdit (s : AppState) (f : Grid → Grid) : AppState :=
  { grid := f s.grid, history := s.history ++ [s.grid], future := [] }

/-- `undo` from `src/App.tsx`. -/
def undo (s : AppState) : AppState :=
  match s.history.getLast? with
  | none => s
  | some previous =>
    { grid := previous, history := s.history.dropLast, future := s.grid :: s.future }

/-- `redo` from `src/App.tsx`. -/
def redo (s : AppState) : AppState :=
  match s.future with
  | [] => s
  | next :: rest =>
    { grid := next, history := s.history ++ [s.grid], future := rest }

/-- A paint click (`handleTileClick` with a non-`Select` tool) at the state
level: `pushHistory()` happens unconditionally before the grid updater
runs (also when the updater rejects and returns the input grid). -/
def handleTileClickPaint (s : AppState) (tool : RoomType) (x y : Int)
    (subTarget : Option Nat) (brush : Brush) : AppState :=
  applyEdit s (fun g => handlePaint g tool x y subTarget brush)

/-- The wall-move grid updater inside `handleTileMove` (`src/App.tsx`):
splice the wall out of the source list and append it to the target list. -/
def moveWallGrid (g : Grid) (fromX fromY toX toY : Int) (wallIndex : Nat) : Grid :=
  let sTile := getTileI g fromX fromY
  match (sTile.placedWalls.getD []).get? wallIndex with
  | none => g
  | some wallToMove =>
    let newSourceWalls := (sTile.placedWalls.getD []).eraseIdx wallIndex
    let g1 := setTileI g fromX fromY { sTile with placedWalls := some newSourceWalls }
    let tTile := getTileI g1 toX toY
    let newTargetWalls := (tTile.placedWalls.getD []) ++ [wallToMove]
    setTileI g1 toX toY { tTile with placedWalls := some newTargetWalls }

/-- The large-room grid updater inside `handleTileMove` (`src/App.tsx`):
clear the source footprint (keeping walls), then write each target cell
from the corresponding source cell of the pre-move grid, keeping the
target cell's walls. -/
def moveLargeRoomGrid (g : Grid) (fromX fromY toX toY : Int) : Grid :=
  let sourceTile := getTileI g fromX fromY
  let srcAnchor : Int × Int :=
    match sourceTile.variantX, sourceTile.variantY with
    | some vx, some vy => (fromX - vx, fromY - vy)
    | _, _ => ((Int.fdiv fromX (LARGE_ROOM_SIZE : Int)) * LARGE_ROOM_SIZE,
               (Int.fdiv fromY (LARGE_ROOM_SIZE : Int)) * LARGE_ROOM_SIZE)
  let targetAnchorX := toX - (fromX - srcAnchor.1)
  let targetAnchorY := toY - (fromY - srcAnchor.2)
  let cleared := writeLoop g offsets (fun d => (srcAnchor.1 + d.1, srcAnchor.2 + d.2))
    (fun d old =>
      { x := srcAnchor.1 + d.1, y := srcAnchor.2 + d.2,
        roomType := RoomType.None, rotation := 0,
        placedWalls := old.placedWalls })
  writeLoop cleared offsets (fun d => (targetAnchorX + d.1, targetAnchorY + d.2))
    (fun d oldTarget =>
      let srcTile := getTileI g (srcAnchor.1 + d.1) (srcAnchor.2 + d.2)
      { srcTile with
        x := targetAnchorX + d.1, y := targetAnchorY + d.2,
        variantX := some d.1, variantY := some d.2,
        placedWalls := oldTarget.placedWalls })

/-- The single-tile grid updater inside `handleTileMove` (`src/App.tsx`). -/
def moveSingleGrid (g : Grid) (fromX fromY toX toY : Int) : Grid :=
  let tileFrom := getTileI g fromX fromY
  let tileTo := getTileI g toX toY
  let g1 := setTileI g toX toY
    { tileFrom with x := toX, y := toY, placedWalls := tileTo.placedWalls }
  setTileI g1 fromX fromY
    { x := fromX, y := fromY, roomType := RoomType.None, rotation := 0,
      placedWalls := tileFrom.placedWalls }

/-- `handleTileMove` from `src/App.tsx` at the state level: all validation
happens before `pushHistory`, so a rejected move returns the state
unchanged.  `fromSub = some i` models a `wall:i` drag sub-target. -/
def handleTileMove (s : AppState) (fromX fromY toX toY : Int)
    (fromSub : Option Nat) : AppState :=
  if fromX = toX ∧ fromY = toY then s
  else
    let g := s.grid
    let sourceTile := getTileI g fromX fromY
    match fromSub with
    | some wallIndex =>
      match (sourceTile.placedWalls.getD []).get? wallIndex with
      | none => s
      | some w =>
        let targetTile := getTileI g toX toY
        if (targetTile.placedWalls.getD []).any (fun e => e.rotation == w.rotation) then s
        else
          let isPerimeter : Bool :=
            if App.isLargeRoomType targetTile.roomType then
              let v : Int × Int :=
                match targetTile.variantX, targetTile.variantY with
                | some vx, some vy => (vx, vy)
                | _, _ =>
                  (toX - (Int.fdiv toX (LARGE_ROOM_SIZE : Int)) * LARGE_ROOM_SIZE,
                   toY - (Int.fdiv toY (LARGE_ROOM_SIZE : Int)) * LARGE_ROOM_SIZE)
              (w.rotation == 0 && v.2 == 0) ||
              (w.rotation == 1 && v.1 == (LARGE_ROOM_SIZE : Int) - 1) ||
              (w.rotation == 2 && v.2 == (LARGE_ROOM_SIZE : Int) - 1) ||
              (w.rotation == 3 && v.1 == 0)
            else true
          if isPerimeter then
            applyEdit s (fun g0 => moveWallGrid g0 fromX fromY toX toY wallIndex)
          else s
    | none =>
      if App.isLargeRoomType sourceTile.roomType then
        let srcAnchor : Int × Int :=
          match sourceTile.variantX, sourceTile.variantY with
          | some vx, some vy => (fromX - vx, fromY - vy)
          | _, _ => ((Int.fdiv fromX (LARGE_ROOM_SIZE : Int)) * LARGE_ROOM_SIZE,
                     (Int.fdiv fromY (LARGE_ROOM_SIZE : Int)) * LARGE_ROOM_SIZE)
        let targetAnchorX := toX - (fromX - srcAnchor.1)
        let targetAnchorY := toY - (fromY - srcAnchor.2)
        if targetAnchorX < 0 ∨ targetAnchorY < 0 ∨
           targetAnchorX + ((LARGE_ROOM_SIZE : Int) - 1) ≥ (GRID_SIZE : Int) ∨
           targetAnchorY + ((LARGE_ROOM_SIZE : Int) - 1) ≥ (GRID_SIZE : Int) then s
        else if offsets.any (fun d =>
            let tx := targetAnchorX + d.1
            let ty := targetAnchorY + d.2
            let isSelf :=
              decide (srcAnchor.1 ≤ tx ∧ tx < srcAnchor.1 + (LARGE_ROOM_SIZE : Int) ∧
                      srcAnchor.2 ≤ ty ∧ ty < srcAnchor.2 + (LARGE_ROOM_SIZE : Int))
            !isSelf && ((getTileI g tx ty).roomType != RoomType.None)) then s
        else applyEdit s (fun g0 => moveLargeRoomGrid g0 fromX fromY toX toY)
      else
        if (getTileI g toX toY).roomType ≠ RoomType.None then s
        else applyEdit s (fun g0 => moveSingleGrid g0 fromX fromY toX toY)

/-- The wall branch of `handleInspectorUpdate` (`src/App.tsx`): rewrite the
selected wall's `rotation` and/or `customColor` in place.  Note the source
performs no same-edge check here. -/
def inspectorWallUpdate (g : Grid) (selX selY : Int) (wallIndex : Nat)
    (updRotation : Option Nat) (updColor : Option String) : Grid :=
  let tile := getTileI g selX selY
  match (tile.placedWalls.getD []).get? wallIndex with
  | none => g
  | some _ =>
    let walls := tile.placedWalls.getD []
    let walls1 :=
      match updRotation with
      | some r => walls.set wallIndex { (walls.getD wallIndex default) with rotation := r }
      | none => walls
    let walls2 :=
      match updColor with
      | some c => walls1.set wallIndex { (walls1.getD wallIndex default) with customColor := some c }
      | none => walls1
    setTileI g selX selY { tile with placedWalls := some walls2 }

/-- The initial brush settings of `src/App.tsx`
(`useState<Partial<TileData>>` with rotation 0 and no inventory). -/
def defaultBrush : Brush := { rotation := some 0, hasInventory := some false }

/-- A brush carrying a label and the inventory flag, used for the
Scenario A check of C2. -/
def scenarioABrush : Brush :=
  { rotation := some 0, label := some "W", hasInventory := some true }

/-- Scenario A of the spec: `WaitingRoom` painted at click (7,7) on the
empty 15x15 grid. -/
def scenarioAGrid : Grid :=
  handlePaint createInitialGrid RoomType.WaitingRoom 7 7 none scenarioABrush

/-- C1: the claim states that all three of WaitingRoom, OperatorySuite and
ImagingSuite are treated as large room kinds and that painting each of them
on an empty grid writes a full 5x5 block.  The exported helper in
`IsoMapConstants.ts` indeed returns true for all three, but `handleTileClick`
in `App.tsx` uses the local duplicate helper, which omits `OperatorySuite`:
painting `OperatorySuite` at (7,7) on the empty grid writes a single tile
(no variant offsets, neighbours untouched) instead of a 5x5 block, while
`WaitingRoom` does write the block. -/
theorem C1_operatory_suite_not_treated_large :
    IsoMapConstants.isLargeRoomType RoomType.WaitingRoom = true ∧
    IsoMapConstants.isLargeRoomType RoomType.OperatorySuite = true ∧
    IsoMapConstants.isLargeRoomType RoomType.ImagingSuite = true ∧
    App.isLargeRoomType RoomType.OperatorySuite = false ∧
    ((getTileI (handlePaint createInitialGrid RoomType.OperatorySuite 7 7 none defaultBrush) 7 7).roomType
        = RoomType.OperatorySuite ∧
     (getTileI (handlePaint createInitialGrid RoomType.OperatorySuite 7 7 none defaultBrush) 7 7).variantX
        = none ∧
     (getTileI (handlePaint createInitialGrid RoomType.OperatorySuite 7 7 none defaultBrush) 6 7).roomType
        = RoomType.None ∧
     (getTileI (handlePaint createInitialGrid RoomType.OperatorySuite 7 7 none defaultBrush) 5 5).roomType
        = RoomType.None) ∧
    ((getTileI (handlePaint createInitialGrid RoomType.WaitingRoom 7 7 none defaultBrush) 5 5).roomType
        = RoomType.WaitingRoom ∧
     (getTileI (handlePaint createInitialGrid RoomType.WaitingRoom 7 7 none defaultBrush) 9 9).roomType
        = RoomType.WaitingRoom) := by
  decide

/-- C4: for every rotation `r` in 0..3, `getEffectiveVariant` maps the 5x5
index set into itself, is injective and surjective on it (hence a
bijection), and composing the transform for `r` with the transform for the
inverse rotation `(4-r) % 4` is the identity on the index set. -/
theorem C4_effective_variant_bijection :
    ∀ r : Fin 4, ∀ a b : Fin 5,
      (0 ≤ (IsoMapConstants.getEffectiveVariant (a : Int) (b : Int) (r : Nat)).1 ∧
       (IsoMapConstants.getEffectiveVariant (a : Int) (b : Int) (r : Nat)).1 < 5 ∧
       0 ≤ (IsoMapConstants.getEffectiveVariant (a : Int) (b : Int) (r : Nat)).2 ∧
       (IsoMapConstants.getEffectiveVariant (a : Int) (b : Int) (r : Nat)).2 < 5) ∧
      (∀ a' b' : Fin 5,
        IsoMapConstants.getEffectiveVariant (a : Int) (b : Int) (r : Nat) =
          IsoMapConstants.getEffectiveVariant (a' : Int) (b' : Int) (r : Nat) →
        a = a' ∧ b = b') ∧
      (∃ c d : Fin 5,
        IsoMapConstants.getEffectiveVariant (c : Int) (d : Int) (r : Nat)
          = ((a : Int), (b : Int))) ∧
      IsoMapConstants.getEffectiveVariant
        (IsoMapConstants.getEffectiveVariant (a : Int) (b : Int) (r : Nat)).1
        (IsoMapConstants.getEffectiveVariant (a : Int) (b : Int) (r : Nat)).2
        ((4 - (r : Nat)) % 4)
      = ((a : Int), (b : Int)) := by
  decide

/-- C3: undo is a no-op on an empty past stack; a mutating edit (the
`pushHistory(); setGrid(f)` pattern) records the pre-edit grid and clears
`future`; undo after an edit from `G` to `G'` restores `G` and puts `G'` at
the front of `future`; redo then restores the post-edit state; a new edit
after an undo clears `future`; and with two sequential edits from an empty
history, undo-undo-redo-redo walks back to the initial grid and forward to
the post-second-edit state. -/
theorem C3_history_round_trip (s : AppState) (f f1 f2 : Grid → Grid) (G : Grid) :
    (s.history = [] → undo s = s) ∧
    (applyEdit s f = { grid := f s.grid, history := s.history ++ [s.grid], future := [] }) ∧
    (undo (applyEdit s f) = { grid := s.grid, history := s.history, future := [f s.grid] }) ∧
    (redo (undo (applyEdit s f)) = applyEdit s f) ∧
    (∀ g' : Grid, (applyEdit (undo (applyEdit s f)) (fun _ => g')).future = []) ∧
    ((undo (applyEdit (applyEdit ⟨G, [], []⟩ f1) f2)).grid = f1 G ∧
     (undo (undo (applyEdit (applyEdit ⟨G, [], []⟩ f1) f2))).grid = G ∧
     redo (redo (undo (undo (applyEdit (applyEdit ⟨G, [], []⟩ f1) f2))))
       = applyEdit (applyEdit ⟨G, [], []⟩ f1) f2) := by
  refine ⟨?_, ?_, ?_, ?_, ?_, ?_, ?_, ?_⟩ <;>
    simp [undo, redo, applyEdit]
  intro h
  simp [h]

/-- C3 witness: undo on the fresh state with empty history is a no-op. -/
theorem C3_history_round_trip_witness :
    undo ⟨createInitialGrid, [], []⟩ = ⟨createInitialGrid, [], []⟩ :=
  (C3_history_round_trip ⟨createInitialGrid, [], []⟩ id id id createInitialGrid).1 rfl

/-- C10: in paint mode `pushHistory()` runs before the grid updater
validates anything, so a rejected placement (one whose updater returns the
input grid) still pushes the unchanged grid onto `past` and clears
`future`; the next undo therefore leaves the grid content unchanged. -/
theorem C10_rejected_paint_pushes_history (s : AppState) (tool : RoomType) (x y : Int)
    (sub : Option Nat) (brush : Brush)
    (hrej : handlePaint s.grid tool x y sub brush = s.grid) :
    handleTileClickPaint s tool x y sub brush
      = { grid := s.grid, history := s.history ++ [s.grid], future := [] } ∧
    (undo (handleTileClickPaint s tool x y sub brush)).grid = s.grid := by
  constructor
  · simp [handleTileClickPaint, applyEdit, hrej]
  · simp [handleTileClickPaint, applyEdit, undo, hrej]

/-- C10 witness: repainting a WaitingRoom over itself is rejected (blocked
footprint), yet the unchanged grid is pushed onto `past`, the nonempty
`future` stack is destroyed, and the following undo keeps the same grid. -/
theorem C10_rejected_paint_pushes_history_witness :
    handleTileClickPaint
        ⟨handlePaint createInitialGrid RoomType.WaitingRoom 7 7 none defaultBrush,
         [], [createInitialGrid]⟩
        RoomType.WaitingRoom 7 7 none defaultBrush
      = { grid := handlePaint createInitialGrid RoomType.WaitingRoom 7 7 none defaultBrush,
          history := [handlePaint createInitialGrid RoomType.WaitingRoom 7 7 none defaultBrush],
          future := [] } ∧
    (undo (handleTileClickPaint
        ⟨handlePaint createInitialGrid RoomType.WaitingRoom 7 7 none defaultBrush,
         [], [createInitialGrid]⟩
        RoomType.WaitingRoom 7 7 none defaultBrush)).grid
      = handlePaint createInitialGrid RoomType.WaitingRoom 7 7 none defaultBrush :=
  C10_rejected_paint_pushes_history
    ⟨handlePaint createInitialGrid RoomType.WaitingRoom 7 7 none defaultBrush,
     [], [createInitialGrid]⟩
    RoomType.WaitingRoom 7 7 none defaultBrush rfl

theorem WF_setTileI {g : Grid} (h : WF g) (x y : Int) (t : TileData) :
    WF (setTileI g x y t) := by
  unfold setTileI
  split
  case isFalse => exact h
  case isTrue hxy =>
    by_cases hlen : y.toNat < g.length
    · refine ⟨by simpa using h.1, ?_⟩
      intro i hi
      by_cases hyi : y.toNat = i
      · subst hyi
        simp [List.getD, List.getElem?_set_self, hlen]
        have := h.2 y.toNat (by omega)
        simpa [List.getD, List.getElem?_eq_getElem hlen] using this
      · simp [List.getD, List.getElem?_set_ne hyi]
        have := h.2 i hi
        simpa [List.getD] using this
    · rw [List.set_eq_of_length_le (by omega)]
      exact h

theorem getTileI_setTileI_self {g : Grid} (h : WF g) {x y : Int}
    (hx0 : 0 ≤ x) (hx1 : x < (GRID_SIZE : Int)) (hy0 : 0 ≤ y) (hy1 : y < (GRID_SIZE : Int))
    (t : TileData) :
    getTileI (setTileI g x y t) x y = t := by
  have hyl : y.toNat < g.length := by
    rw [h.1]; unfold GRID_SIZE at hy1 ⊢; omega
  have hxl : x.toNat < (g[y.toNat]).length := by
    have := h.2 y.toNat (by unfold GRID_SIZE at hy1 ⊢; omega)
    simp only [List.getD, List.get?_eq_getElem?, List.getElem?_eq_getElem hyl,
      Option.getD_some] at this
    rw [this]
    unfold GRID_SIZE at hx1 ⊢; omega
  simp only [getTileI, setTileI, if_pos (And.intro hx0 hy0)]
  simp [List.getD, List.getElem?_set_self, hyl, hxl, List.getElem?_eq_getElem]

theorem getTileI_setTileI_ne {g : Grid} {x y x' y' : Int}
    (hne : ¬(x' = x ∧ y' = y)) (t : TileData) :
    getTileI (setTileI g x y t) x' y' = getTileI g x' y' := by
  unfold setTileI
  split
  case isFalse => rfl
  case isTrue hxy =>
    unfold getTileI
    split
    case isFalse => rfl
    case isTrue hxy' =>
      by_cases hyy : y'.toNat = y.toNat
      · have hyeq : y' = y := by omega
        have hxx : x.toNat ≠ x'.toNat := by
          intro hc
          exact hne ⟨by omega, hyeq⟩
        by_cases hlen : y.toNat < g.length
        · rw [hyy]
          simp [List.getD, List.getElem?_set_self, hlen, List.getElem?_set_ne hxx,
            List.getElem?_eq_getElem]
        · rw [List.set_eq_of_length_le (by omega)]
      · simp [List.getD, List.getElem?_set_ne (by omega : y.toNat ≠ y'.toNat)]

theorem writeLoop_cons (g : Grid) (d : Int × Int) (rest : List (Int × Int))
    (pos : Int × Int → Int × Int) (upd : Int × Int → TileData → TileData) :
    writeLoop g (d :: rest) pos upd =
      writeLoop
        (if inGrid (pos d) then
          setTileI g (pos d).1 (pos d).2 (upd d (getTileI g (pos d).1 (pos d).2))
         else g) rest pos upd := by
  simp [writeLoop]

theorem WF_writeLoop {g : Grid} (h : WF g) (ds : List (Int × Int))
    (pos : Int × Int → Int × Int) (upd : Int × Int → TileData → TileData) :
    WF (writeLoop g ds pos upd) := by
  induction ds generalizing g with
  | nil => exact h
  | cons d rest ih =>
    rw [writeLoop_cons]
    split
    · exact ih (WF_setTileI h _ _ _)
    · exact ih h

/-- Frame property: a cell not targeted by any offset of a `writeLoop` is
unchanged. -/
theorem getTileI_writeLoop_notMem {g : Grid} {ds : List (Int × Int)}
    {pos : Int × Int → Int × Int} {upd : Int × Int → TileData → TileData}
    {q : Int × Int} (hq : ∀ d ∈ ds, pos d ≠ q) :
    getTileI (writeLoop g ds pos upd) q.1 q.2 = getTileI g q.1 q.2 := by
  induction ds generalizing g with
  | nil => rfl
  | cons d rest ih =>
    rw [writeLoop_cons]
    rw [ih (fun d' hd' => hq d' (List.mem_cons_of_mem d hd'))]
    split
    · refine getTileI_setTileI_ne ?_ _
      intro hc
      exact hq d (List.mem_cons_self d rest) (Prod.ext hc.1 hc.2).symm
    · rfl

/-- Write property: when the targeted positions of a `writeLoop` are
pairwise distinct, the cell at an in-bounds position `pos d` ends up as
`upd d` applied to its pre-loop value. -/
theorem getTileI_writeLoop_mem {g : Grid} (hWF : WF g) {ds : List (Int × Int)}
    {pos : Int × Int → Int × Int} {upd : Int × Int → TileData → TileData}
    (hnd : (ds.map pos).Nodup) {d : Int × Int} (hd : d ∈ ds) (hin : inGrid (pos d)) :
    getTileI (writeLoop g ds pos upd) (pos d).1 (pos d).2 =
      upd d (getTileI g (pos d).1 (pos d).2) := by
  induction ds generalizing g with
  | nil => cases hd
  | cons a rest ih =>
    rw [writeLoop_cons]
    rcases List.mem_cons.mp hd with hda | hdr
    · subst hda
      have hnotin : ∀ d' ∈ rest, pos d' ≠ pos d := by
        intro d' hd' hc
        have : pos d ∈ rest.map pos := hc ▸ List.mem_map_of_mem pos hd'
        exact (List.nodup_cons.mp (by simpa using hnd)).1 this
      rw [getTileI_writeLoop_notMem hnotin]
      rw [if_pos hin]
      exact getTileI_setTileI_self hWF hin.1 hin.2.1 hin.2.2.1 hin.2.2.2 _
    · have hne : pos a ≠ pos d := by
        intro hc
        have : pos d ∈ rest.map pos := List.mem_map_of_mem pos hdr
        exact (List.nodup_cons.mp (by simpa using hnd)).1 (hc ▸ this)
      have hrest : (rest.map pos).Nodup := (List.nodup_cons.mp (by simpa using hnd)).2
      split
      case isTrue hga =>
        rw [ih (WF_setTileI hWF _ _ _) hrest hdr]
        rw [getTileI_setTileI_ne (by
          intro hc
          exact hne (Prod.ext hc.1 hc.2).symm)]
      case isFalse hga =>
        exact ih hWF hrest hdr

theorem offsets_bounds : ∀ d ∈ offsets, 0 ≤ d.1 ∧ d.1 < (LARGE_ROOM_SIZE : Int) ∧
    0 ≤ d.2 ∧ d.2 < (LARGE_ROOM_SIZE : Int) := by decide

theorem offsets_nodup : offsets.Nodup := by decide

theorem offsets_pos_nodup (sx sy : Int) :
    (offsets.map (fun d : Int × Int => (sx + d.1, sy + d.2))).Nodup := by
  refine List.Nodup.map ?_ offsets_nodup
  intro a b hab
  have h1 : sx + a.1 = sx + b.1 := congrArg Prod.fst hab
  have h2 : sy + a.2 = sy + b.2 := congrArg Prod.snd hab
  exact Prod.ext (by omega) (by omega)

theorem placeLargeRoom_blocked (g : Grid) (tool : RoomType) (x y : Int) (brush : Brush)
    (h : ∃ d ∈ offsets,
      (getTileI g (max 0 (min (x - (LARGE_ROOM_SIZE : Int) / 2) ((GRID_SIZE : Int) - (LARGE_ROOM_SIZE : Int))) + d.1)
                  (max 0 (min (y - (LARGE_ROOM_SIZE : Int) / 2) ((GRID_SIZE : Int) - (LARGE_ROOM_SIZE : Int))) + d.2)).roomType
        ≠ RoomType.None) :
    placeLargeRoom g tool x y brush = g := by
  unfold placeLargeRoom
  rw [if_pos]
  rw [List.any_eq_true]
  obtain ⟨d, hd, hne⟩ := h
  exact ⟨d, hd, by simpa [bne_iff_ne] using hne⟩

theorem placeLargeRoom_free (g : Grid) (tool : RoomType) (x y : Int) (brush : Brush)
    (h : ∀ d ∈ offsets,
      (getTileI g (max 0 (min (x - (LARGE_ROOM_SIZE : Int) / 2) ((GRID_SIZE : Int) - (LARGE_ROOM_SIZE : Int))) + d.1)
                  (max 0 (min (y - (LARGE_ROOM_SIZE : Int) / 2) ((GRID_SIZE : Int) - (LARGE_ROOM_SIZE : Int))) + d.2)).roomType
        = RoomType.None) :
    placeLargeRoom g tool x y brush =
      writeLoop g offsets
        (fun d => (max 0 (min (x - (LARGE_ROOM_SIZE : Int) / 2) ((GRID_SIZE : Int) - (LARGE_ROOM_SIZE : Int))) + d.1,
                   max 0 (min (y - (LARGE_ROOM_SIZE : Int) / 2) ((GRID_SIZE : Int) - (LARGE_ROOM_SIZE : Int))) + d.2))
        (fun d old =>
          let isCenter := d.1 = 2 ∧ d.2 = 2
          { old with
            roomType := tool,
            rotation := brush.rotation.getD 0,
            label := if isCenter then brush.label else none,
            customColor := brush.customColor,
            variantX := some d.1,
            variantY := some d.2,
            hasInventory := some (if isCenter then brush.hasInventory.getD false else false),
            inventoryItems := none }) := by
  unfold placeLargeRoom
  rw [if_neg]
  rw [List.any_eq_true]
  push_neg
  intro d hd
  simp [bne_iff_ne, h d hd]

/-- C2: with a large-room tool at click (x,y), the anchor is the per-axis
clamp of (x-2, y-2) to [0, GRID_SIZE - LARGE_ROOM_SIZE]; if any footprint
cell is occupied the returned grid is the unchanged input; otherwise all 25
members receive the tool's room type, the brush rotation, their offset as
`variantX`/`variantY`, with only the (2,2) member taking the brush label and
inventory flag, `inventoryItems` cleared and `placedWalls` kept per cell,
and all other cells unchanged.  On the empty grid a WaitingRoom click at
(7,7) anchors at (5,5) with (7,7) alone carrying label/hasInventory. -/
theorem C2_large_room_placement (g : Grid) (tool : RoomType) (x y : Int)
    (sub : Option Nat) (brush : Brush) (hWF : WF g)
    (htool : App.isLargeRoomType tool = true) :
    ((∃ d ∈ offsets,
        (getTileI g (max 0 (min (x - 2) 10) + d.1) (max 0 (min (y - 2) 10) + d.2)).roomType
          ≠ RoomType.None) →
      handlePaint g tool x y sub brush = g) ∧
    ((∀ d ∈ offsets,
        (getTileI g (max 0 (min (x - 2) 10) + d.1) (max 0 (min (y - 2) 10) + d.2)).roomType
          = RoomType.None) →
      (∀ d ∈ offsets,
        getTileI (handlePaint g tool x y sub brush)
            (max 0 (min (x - 2) 10) + d.1) (max 0 (min (y - 2) 10) + d.2) =
          { getTileI g (max 0 (min (x - 2) 10) + d.1) (max 0 (min (y - 2) 10) + d.2) with
            roomType := tool,
            rotation := brush.rotation.getD 0,
            label := if d.1 = 2 ∧ d.2 = 2 then brush.label else none,
            customColor := brush.customColor,
            variantX := some d.1,
            variantY := some d.2,
            hasInventory := some (if d.1 = 2 ∧ d.2 = 2 then brush.hasInventory.getD false else false),
            inventoryItems := none }) ∧
      (∀ q : Int × Int,
        (∀ d ∈ offsets, (max 0 (min (x - 2) 10) + d.1, max 0 (min (y - 2) 10) + d.2) ≠ q) →
        getTileI (handlePaint g tool x y sub brush) q.1 q.2 = getTileI g q.1 q.2)) ∧
    ((∀ d ∈ offsets,
        (getTileI scenarioAGrid (5 + d.1) (5 + d.2)).roomType = RoomType.WaitingRoom) ∧
     (getTileI scenarioAGrid 7 7).variantX = some 2 ∧
     (getTileI scenarioAGrid 7 7).variantY = some 2 ∧
     (getTileI scenarioAGrid 7 7).label = some "W" ∧
     (getTileI scenarioAGrid 7 7).hasInventory = some true ∧
     (∀ d ∈ offsets, ¬(d.1 = 2 ∧ d.2 = 2) →
        (getTileI scenarioAGrid (5 + d.1) (5 + d.2)).label = none ∧
        (getTileI scenarioAGrid (5 + d.1) (5 + d.2)).hasInventory = some false)) := by
  have htool' : tool = RoomType.WaitingRoom ∨ tool = RoomType.ImagingSuite := by
    cases tool <;> simp_all [App.isLargeRoomType]
  have hpl : handlePaint g tool x y sub brush = placeLargeRoom g tool x y brush := by
    rcases htool' with rfl | rfl <;> rfl
  have ha : (LARGE_ROOM_SIZE : Int) / 2 = 2 := by decide
  have hb : (GRID_SIZE : Int) - (LARGE_ROOM_SIZE : Int) = 10 := by decide
  refine ⟨?_, ?_, ?_⟩
  · intro hblocked
    rw [hpl]
    apply placeLargeRoom_blocked g tool x y brush
    rw [ha, hb]
    exact hblocked
  · intro hfree
    have hfree' : ∀ d ∈ offsets,
        (getTileI g (max 0 (min (x - (LARGE_ROOM_SIZE : Int) / 2) ((GRID_SIZE : Int) - (LARGE_ROOM_SIZE : Int))) + d.1)
                    (max 0 (min (y - (LARGE_ROOM_SIZE : Int) / 2) ((GRID_SIZE : Int) - (LARGE_ROOM_SIZE : Int))) + d.2)).roomType
          = RoomType.None := by
      rw [ha, hb]; exact hfree
    have heq := placeLargeRoom_free g tool x y brush hfree'
    rw [ha, hb] at heq
    constructor
    · intro d hd
      rw [hpl, heq]
      have hb1 := offsets_bounds d hd
      have hin : inGrid (max 0 (min (x - 2) 10) + d.1, max 0 (min (y - 2) 10) + d.2) := by
        unfold inGrid GRID_SIZE
        dsimp only
        omega
      exact getTileI_writeLoop_mem hWF (offsets_pos_nodup _ _) hd hin
    · intro q hq
      rw [hpl, heq]
      exact getTileI_writeLoop_notMem hq
  · refine ⟨by decide, by decide, by decide, by decide, by decide, by decide⟩

/-- C2 witness: the theorem at the empty grid with the WaitingRoom tool at
click (7,7) yields (7,7) as the (2,2) member of the room. -/
theorem C2_large_room_placement_witness :
    (getTileI scenarioAGrid 7 7).variantX = some 2 :=
  (C2_large_room_placement createInitialGrid RoomType.WaitingRoom 7 7 none defaultBrush
    (by decide) rfl).2.2.2.1

theorem perimBool_iff (r : Nat) (a b : Int) :
    ((r == 0 && b == 0) ||
     (r == 1 && a == (LARGE_ROOM_SIZE : Int) - 1) ||
     (r == 2 && b == (LARGE_ROOM_SIZE : Int) - 1) ||
     (r == 3 && a == 0)) = true ↔
    ((r = 0 ∧ b = 0) ∨ (r = 1 ∧ a = 4) ∨ (r = 2 ∧ b = 4) ∨ (r = 3 ∧ a = 0)) := by
  simp only [Bool.or_eq_true, Bool.and_eq_true, beq_iff_eq]
  norm_num [LARGE_ROOM_SIZE]
  tauto

theorem placeStructure_large (g : Grid) (tool : RoomType) (x y : Int) (brush : Brush)
    (vx vy : Int)
    (hlarge : App.isLargeRoomType (getTileI g x y).roomType = true)
    (hvx : (getTileI g x y).variantX = some vx)
    (hvy : (getTileI g x y).variantY = some vy) :
    placeStructure g tool x y brush =
      if ((brush.rotation.getD 0 == 0 && vy == 0) ||
          (brush.rotation.getD 0 == 1 && vx == (LARGE_ROOM_SIZE : Int) - 1) ||
          (brush.rotation.getD 0 == 2 && vy == (LARGE_ROOM_SIZE : Int) - 1) ||
          (brush.rotation.getD 0 == 3 && vx == 0)) = true then
        setTileI g x y
          { getTileI g x y with
            placedWalls := some
              (match ((getTileI g x y).placedWalls.getD []).findIdx?
                  (fun w => w.rotation == brush.rotation.getD 0) with
               | some i => ((getTileI g x y).placedWalls.getD []).set i
                   { type := tool, rotation := brush.rotation.getD 0,
                     customColor := brush.customColor }
               | none => ((getTileI g x y).placedWalls.getD []) ++
                   [{ type := tool, rotation := brush.rotation.getD 0,
                      customColor := brush.customColor }]) }
      else g := by
  unfold placeStructure
  dsimp only
  simp only [hlarge, hvx, hvy, Option.getD_some, if_true, ite_true]

/-- C5: placing a structural tool on a member cell of a large room succeeds
exactly when the brush rotation lies on that member's outer-perimeter edge
(rotation 0 needs variantY = 0, rotation 1 needs variantX = 4, rotation 2
needs variantY = 4, rotation 3 needs variantX = 0); an interior placement
returns the grid unchanged; on success a wall occupying the same edge is
replaced, otherwise the new wall is appended, and no other cell changes. -/
theorem C5_perimeter_wall_rule (g : Grid) (tool : RoomType) (x y : Int)
    (sub : Option Nat) (brush : Brush) (vx vy : Int) (hWF : WF g)
    (hx0 : 0 ≤ x) (hx1 : x < (GRID_SIZE : Int)) (hy0 : 0 ≤ y) (hy1 : y < (GRID_SIZE : Int))
    (htool : IsoMapConstants.isStructureType tool = true)
    (hlarge : App.isLargeRoomType (getTileI g x y).roomType = true)
    (hvx : (getTileI g x y).variantX = some vx)
    (hvy : (getTileI g x y).variantY = some vy) :
    (¬((brush.rotation.getD 0 = 0 ∧ vy = 0) ∨
       (brush.rotation.getD 0 = 1 ∧ vx = 4) ∨
       (brush.rotation.getD 0 = 2 ∧ vy = 4) ∨
       (brush.rotation.getD 0 = 3 ∧ vx = 0)) →
      handlePaint g tool x y sub brush = g) ∧
    (((brush.rotation.getD 0 = 0 ∧ vy = 0) ∨
      (brush.rotation.getD 0 = 1 ∧ vx = 4) ∨
      (brush.rotation.getD 0 = 2 ∧ vy = 4) ∨
      (brush.rotation.getD 0 = 3 ∧ vx = 0)) →
      (∀ q : Int × Int, ¬(q.1 = x ∧ q.2 = y) →
        getTileI (handlePaint g tool x y sub brush) q.1 q.2 = getTileI g q.1 q.2) ∧
      getTileI (handlePaint g tool x y sub brush) x y =
        { getTileI g x y with
          placedWalls := some
            (match ((getTileI g x y).placedWalls.getD []).findIdx?
                (fun w => w.rotation == brush.rotation.getD 0) with
             | some i => ((getTileI g x y).placedWalls.getD []).set i
                 { type := tool, rotation := brush.rotation.getD 0,
                   customColor := brush.customColor }
             | none => ((getTileI g x y).placedWalls.getD []) ++
                 [{ type := tool, rotation := brush.rotation.getD 0,
                    customColor := brush.customColor }]) }) := by
  have hps : handlePaint g tool x y sub brush = placeStructure g tool x y brush := by
    unfold handlePaint
    rw [if_pos htool]
  have hred := placeStructure_large g tool x y brush vx vy hlarge hvx hvy
  constructor
  · intro hnp
    rw [hps, hred, if_neg (fun hc => hnp ((perimBool_iff _ _ _).mp hc))]
  · intro hp
    rw [hps, hred, if_pos ((perimBool_iff _ _ _).mpr hp)]
    constructor
    · intro q hq
      exact getTileI_setTileI_ne hq _
    · exact getTileI_setTileI_self hWF hx0 hx1 hy0 hy1 _

/-- C5 witness: on the Scenario A grid, cell (5,5) is the (0,0) member of
the WaitingRoom, and placing a StraightWall with brush rotation 0 (north
edge) there succeeds, appending the wall. -/
theorem C5_perimeter_wall_rule_witness :
    (getTileI (handlePaint scenarioAGrid RoomType.StraightWall 5 5 none defaultBrush) 5 5).placedWalls
      = some [{ type := RoomType.StraightWall, rotation := 0, customColor := none }] := by
  have h := (C5_perimeter_wall_rule scenarioAGrid RoomType.StraightWall 5 5 none defaultBrush
    0 0 (by decide) (by decide) (by decide) (by decide) (by decide) rfl
    (by decide) (by decide) (by decide)).2 (Or.inl ⟨rfl, rfl⟩)
  rw [h.2]
  decide

theorem eraseAt_noop (g : Grid) (x y : Int)
    (hr : (getTileI g x y).roomType = RoomType.None) :
    eraseAt g x y none = g := by
  unfold eraseAt
  dsimp only
  rw [if_pos hr]

theorem eraseAt_single (g : Grid) (x y : Int)
    (hr : (getTileI g x y).roomType ≠ RoomType.None)
    (hl : App.isLargeRoomType (getTileI g x y).roomType = false) :
    eraseAt g x y none =
      setTileI g x y
        { x := x, y := y, roomType := RoomType.None, rotation := 0,
          placedWalls := (getTileI g x y).placedWalls } := by
  unfold eraseAt
  dsimp only
  rw [if_neg hr, if_neg (by rw [hl]; exact Bool.false_ne_true)]

theorem eraseAt_large (g : Grid) (x y : Int) (a : Int × Int)
    (hr : (getTileI g x y).roomType ≠ RoomType.None)
    (hl : App.isLargeRoomType (getTileI g x y).roomType = true)
    (ha : (match (getTileI g x y).variantX, (getTileI g x y).variantY with
           | some vx, some vy => ((x - vx : Int), (y - vy : Int))
           | _, _ => ((Int.fdiv x (LARGE_ROOM_SIZE : Int)) * LARGE_ROOM_SIZE,
                      (Int.fdiv y (LARGE_ROOM_SIZE : Int)) * LARGE_ROOM_SIZE)) = a) :
    eraseAt g x y none =
      writeLoop g offsets (fun d => (a.1 + d.1, a.2 + d.2))
        (fun d old =>
          if old.roomType = (getTileI g x y).roomType then
            { x := a.1 + d.1, y := a.2 + d.2,
              roomType := RoomType.None, rotation := 0,
              placedWalls := old.placedWalls }
          else old) := by
  unfold eraseAt
  dsimp only
  rw [if_neg hr, if_pos hl, ha]

/-- C9: erasing a room never changes walls.  With no wall sub-target, every
in-grid cell keeps its `placedWalls` exactly; a single-tile erase resets
just the clicked cell's room fields while keeping its walls; a large-room
erase resets each footprint member whose room type still matches the erased
type (keeping its walls), leaves non-matching members as they are, and
leaves all cells outside the footprint unchanged. -/
theorem C9_erase_preserves_walls (g : Grid) (x y : Int) (brush : Brush) (hWF : WF g)
    (hx0 : 0 ≤ x) (hx1 : x < (GRID_SIZE : Int)) (hy0 : 0 ≤ y) (hy1 : y < (GRID_SIZE : Int)) :
    (∀ p : Int × Int, inGrid p →
       (getTileI (handlePaint g RoomType.None x y none brush) p.1 p.2).placedWalls
         = (getTileI g p.1 p.2).placedWalls) ∧
    ((getTileI g x y).roomType ≠ RoomType.None →
     App.isLargeRoomType (getTileI g x y).roomType = false →
       getTileI (handlePaint g RoomType.None x y none brush) x y =
         { x := x, y := y, roomType := RoomType.None, rotation := 0,
           placedWalls := (getTileI g x y).placedWalls } ∧
       (∀ q : Int × Int, ¬(q.1 = x ∧ q.2 = y) →
          getTileI (handlePaint g RoomType.None x y none brush) q.1 q.2
            = getTileI g q.1 q.2)) ∧
    (∀ vx vy : Int,
       (getTileI g x y).variantX = some vx →
       (getTileI g x y).variantY = some vy →
       App.isLargeRoomType (getTileI g x y).roomType = true →
       (∀ d ∈ offsets, inGrid (x - vx + d.1, y - vy + d.2) →
          getTileI (handlePaint g RoomType.None x y none brush)
              (x - vx + d.1) (y - vy + d.2) =
            (if (getTileI g (x - vx + d.1) (y - vy + d.2)).roomType
                  = (getTileI g x y).roomType then
               { x := x - vx + d.1, y := y - vy + d.2,
                 roomType := RoomType.None, rotation := 0,
                 placedWalls := (getTileI g (x - vx + d.1) (y - vy + d.2)).placedWalls }
             else getTileI g (x - vx + d.1) (y - vy + d.2))) ∧
       (∀ q : Int × Int, (∀ d ∈ offsets, (x - vx + d.1, y - vy + d.2) ≠ q) →
          getTileI (handlePaint g RoomType.None x y none brush) q.1 q.2
            = getTileI g q.1 q.2)) := by
  have hpe : handlePaint g RoomType.None x y none brush = eraseAt g x y none := rfl
  have hlne : App.isLargeRoomType (getTileI g x y).roomType = true →
      (getTileI g x y).roomType ≠ RoomType.None := by
    intro hl hc
    rw [hc] at hl
    exact absurd hl (by decide)
  refine ⟨?_, ?_, ?_⟩
  · intro p hp
    rw [hpe]
    by_cases hr : (getTileI g x y).roomType = RoomType.None
    · rw [eraseAt_noop g x y hr]
    · by_cases hl : App.isLargeRoomType (getTileI g x y).roomType = true
      · obtain ⟨a, ha⟩ : ∃ a, (match (getTileI g x y).variantX, (getTileI g x y).variantY with
           | some vx, some vy => ((x - vx : Int), (y - vy : Int))
           | _, _ => ((Int.fdiv x (LARGE_ROOM_SIZE : Int)) * LARGE_ROOM_SIZE,
                      (Int.fdiv y (LARGE_ROOM_SIZE : Int)) * LARGE_ROOM_SIZE)) = a := ⟨_, rfl⟩
        rw [eraseAt_large g x y a hr hl ha]
        by_cases hmem : ∃ d ∈ offsets, ((a.1 + d.1 : Int), (a.2 + d.2 : Int)) = p
        · obtain ⟨d, hd, hpd⟩ := hmem
          rw [← hpd]
          rw [getTileI_writeLoop_mem hWF (offsets_pos_nodup _ _) hd (hpd ▸ hp)]
          split <;> rfl
        · push_neg at hmem
          rw [getTileI_writeLoop_notMem hmem]
      · rw [eraseAt_single g x y hr (by simpa using hl)]
        by_cases hpq : p.1 = x ∧ p.2 = y
        · obtain ⟨h1, h2⟩ := hpq
          obtain ⟨p1, p2⟩ := p
          dsimp only at h1 h2 ⊢
          subst h1; subst h2
          rw [getTileI_setTileI_self hWF hx0 hx1 hy0 hy1]
        · rw [getTileI_setTileI_ne hpq]
  · intro hr hl
    rw [hpe, eraseAt_single g x y hr hl]
    constructor
    · rw [getTileI_setTileI_self hWF hx0 hx1 hy0 hy1]
    · intro q hq
      rw [getTileI_setTileI_ne hq]
  · intro vx vy hvx hvy hl
    have hr := hlne hl
    have ha : (match (getTileI g x y).variantX, (getTileI g x y).variantY with
           | some vx, some vy => ((x - vx : Int), (y - vy : Int))
           | _, _ => ((Int.fdiv x (LARGE_ROOM_SIZE : Int)) * LARGE_ROOM_SIZE,
                      (Int.fdiv y (LARGE_ROOM_SIZE : Int)) * LARGE_ROOM_SIZE))
          = ((x - vx : Int), (y - vy : Int)) := by
      rw [hvx, hvy]
    constructor
    · intro d hd hin
      rw [hpe, eraseAt_large g x y ((x - vx : Int), (y - vy : Int)) hr hl ha]
      exact getTileI_writeLoop_mem hWF (offsets_pos_nodup _ _) hd hin
    · intro q hq
      rw [hpe, eraseAt_large g x y ((x - vx : Int), (y - vy : Int)) hr hl ha]
      exact getTileI_writeLoop_notMem hq

/-- C9 witness: erasing the Scenario A WaitingRoom by clicking its (1,1)
member at (6,6) empties the center cell (7,7) while preserving that cell's
wall list. -/
theorem C9_erase_preserves_walls_witness :
    (getTileI (handlePaint scenarioAGrid RoomType.None 6 6 none defaultBrush) 7 7).roomType
      = RoomType.None ∧
    (getTileI (handlePaint scenarioAGrid RoomType.None 6 6 none defaultBrush) 7 7).placedWalls
      = (getTileI scenarioAGrid 7 7).placedWalls := by
  have h := ((C9_erase_preserves_walls scenarioAGrid 6 6 defaultBrush
    (by decide) (by decide) (by decide) (by decide) (by decide)).2.2 1 1
    (by decide) (by decide) (by decide)).1 (2, 2) (by decide) (by decide)
  constructor
  · rw [show ((6 : Int) - 1 + 2) = 7 from by decide] at h
    rw [h]
    decide
  · rw [show ((6 : Int) - 1 + 2) = 7 from by decide] at h
    rw [h]
    decide

/-- C8: the claim states that after any sequence of structural placements,
wall moves and wall inspector edits no cell ever holds two walls with equal
rotation.  Placements do maintain this (overwrite-by-edge), but the wall
branch of `handleInspectorUpdate` rewrites the selected wall's rotation
without any same-edge check: placing a StraightWall (north) and a Door
(east) on (3,3) keeps rotations [0, 1] distinct, and then editing wall
index 1's rotation to 0 through the inspector produces rotations [0, 0] —
two walls on the same edge, violating the invariant. -/
theorem C8_wall_rotation_uniqueness_violated :
    (((getTileI (handlePaint (handlePaint createInitialGrid RoomType.StraightWall 3 3 none defaultBrush)
        RoomType.Door 3 3 none { rotation := some 1, hasInventory := some false }) 3 3).placedWalls.getD []).map
          PlacedWall.rotation = [0, 1]) ∧
    (((getTileI (handlePaint (handlePaint createInitialGrid RoomType.StraightWall 3 3 none defaultBrush)
        RoomType.Door 3 3 none { rotation := some 1, hasInventory := some false }) 3 3).placedWalls.getD []).Pairwise
          (fun w1 w2 => w1.rotation ≠ w2.rotation)) ∧
    (((getTileI (inspectorWallUpdate (handlePaint (handlePaint createInitialGrid RoomType.StraightWall 3 3 none defaultBrush)
        RoomType.Door 3 3 none { rotation := some 1, hasInventory := some false }) 3 3 1 (some 0) none) 3 3).placedWalls.getD []).map
          PlacedWall.rotation = [0, 0]) ∧
    ¬ (((getTileI (inspectorWallUpdate (handlePaint (handlePaint createInitialGrid RoomType.StraightWall 3 3 none defaultBrush)
        RoomType.Door 3 3 none { rotation := some 1, hasInventory := some false }) 3 3 1 (some 0) none) 3 3).placedWalls.getD []).Pairwise
          (fun w1 w2 => w1.rotation ≠ w2.rotation)) := by
  refine ⟨by decide, by decide, by decide, by decide⟩

theorem moveLargeRoomGrid_eq (g : Grid) (fromX fromY toX toY vx vy : Int)
    (hvx : (getTileI g fromX fromY).variantX = some vx)
    (hvy : (getTileI g fromX fromY).variantY = some vy) :
    moveLargeRoomGrid g fromX fromY toX toY =
      writeLoop
        (writeLoop g offsets (fun d => (fromX - vx + d.1, fromY - vy + d.2))
          (fun d old =>
            { x := fromX - vx + d.1, y := fromY - vy + d.2,
              roomType := RoomType.None, rotation := 0,
              placedWalls := old.placedWalls }))
        offsets (fun d => (toX - vx + d.1, toY - vy + d.2))
        (fun d oldTarget =>
          { getTileI g (fromX - vx + d.1) (fromY - vy + d.2) with
            x := toX - vx + d.1, y := toY - vy + d.2,
            variantX := some d.1, variantY := some d.2,
            placedWalls := oldTarget.placedWalls }) := by
  unfold moveLargeRoomGrid
  dsimp only
  rw [hvx, hvy]
  dsimp only
  rw [sub_sub_cancel, sub_sub_cancel]

theorem handleTileMove_large (s : AppState) (fromX fromY toX toY vx vy : Int)
    (hne : ¬(fromX = toX ∧ fromY = toY))
    (hlarge : App.isLargeRoomType (getTileI s.grid fromX fromY).roomType = true)
    (hvx : (getTileI s.grid fromX fromY).variantX = some vx)
    (hvy : (getTileI s.grid fromX fromY).variantY = some vy) :
    handleTileMove s fromX fromY toX toY none =
      if (toX - vx < 0 ∨ toY - vy < 0 ∨
          toX - vx + ((LARGE_ROOM_SIZE : Int) - 1) ≥ (GRID_SIZE : Int) ∨
          toY - vy + ((LARGE_ROOM_SIZE : Int) - 1) ≥ (GRID_SIZE : Int)) then s
      else if (offsets.any (fun d =>
          !(decide (fromX - vx ≤ toX - vx + d.1 ∧
                    toX - vx + d.1 < fromX - vx + (LARGE_ROOM_SIZE : Int) ∧
                    fromY - vy ≤ toY - vy + d.2 ∧
                    toY - vy + d.2 < fromY - vy + (LARGE_ROOM_SIZE : Int))) &&
          ((getTileI s.grid (toX - vx + d.1) (toY - vy + d.2)).roomType != RoomType.None))) = true then s
      else applyEdit s (fun g0 => moveLargeRoomGrid g0 fromX fromY toX toY) := by
  unfold handleTileMove
  rw [if_neg hne]
  dsimp only
  rw [if_pos hlarge, hvx, hvy]
  dsimp only
  simp only [sub_sub_cancel]

/-- C6: moving a large room is rejected when the implied target footprint
leaves the grid, and rejected when any target cell outside the exact source
footprint is occupied (overlap with the source itself is not a collision);
on success the snapshot is pushed, every target cell receives the
corresponding source cell's data with variant offsets recomputed from the
new anchor and the target cell's own walls kept, every vacated source cell
becomes empty keeping its walls, and all other cells are unchanged. -/
theorem C6_large_room_move (s : AppState) (fromX fromY toX toY vx vy : Int)
    (hWF : WF s.grid)
    (hne : ¬(fromX = toX ∧ fromY = toY))
    (hlarge : App.isLargeRoomType (getTileI s.grid fromX fromY).roomType = true)
    (hvx : (getTileI s.grid fromX fromY).variantX = some vx)
    (hvy : (getTileI s.grid fromX fromY).variantY = some vy)
    (hsrc : 0 ≤ fromX - vx ∧ fromX - vx + 4 < 15 ∧ 0 ≤ fromY - vy ∧ fromY - vy + 4 < 15) :
    ((toX - vx < 0 ∨ toY - vy < 0 ∨ toX - vx + 4 ≥ 15 ∨ toY - vy + 4 ≥ 15) →
      handleTileMove s fromX fromY toX toY none = s) ∧
    ((∃ d ∈ offsets,
        ¬(fromX - vx ≤ toX - vx + d.1 ∧ toX - vx + d.1 < fromX - vx + 5 ∧
          fromY - vy ≤ toY - vy + d.2 ∧ toY - vy + d.2 < fromY - vy + 5) ∧
        (getTileI s.grid (toX - vx + d.1) (toY - vy + d.2)).roomType ≠ RoomType.None) →
      handleTileMove s fromX fromY toX toY none = s) ∧
    (¬(toX - vx < 0 ∨ toY - vy < 0 ∨ toX - vx + 4 ≥ 15 ∨ toY - vy + 4 ≥ 15) →
     (∀ d ∈ offsets,
        ¬(fromX - vx ≤ toX - vx + d.1 ∧ toX - vx + d.1 < fromX - vx + 5 ∧
          fromY - vy ≤ toY - vy + d.2 ∧ toY - vy + d.2 < fromY - vy + 5) →
        (getTileI s.grid (toX - vx + d.1) (toY - vy + d.2)).roomType = RoomType.None) →
      (handleTileMove s fromX fromY toX toY none).history = s.history ++ [s.grid] ∧
      (handleTileMove s fromX fromY toX toY none).future = [] ∧
      (∀ d ∈ offsets,
        getTileI (handleTileMove s fromX fromY toX toY none).grid
            (toX - vx + d.1) (toY - vy + d.2) =
          { getTileI s.grid (fromX - vx + d.1) (fromY - vy + d.2) with
            x := toX - vx + d.1, y := toY - vy + d.2,
            variantX := some d.1, variantY := some d.2,
            placedWalls := (getTileI s.grid (toX - vx + d.1) (toY - vy + d.2)).placedWalls }) ∧
      (∀ d ∈ offsets,
        (∀ d' ∈ offsets,
          ((toX - vx + d'.1 : Int), (toY - vy + d'.2 : Int)) ≠
            ((fromX - vx + d.1 : Int), (fromY - vy + d.2 : Int))) →
        getTileI (handleTileMove s fromX fromY toX toY none).grid
            (fromX - vx + d.1) (fromY - vy + d.2) =
          { x := fromX - vx + d.1, y := fromY - vy + d.2,
            roomType := RoomType.None, rotation := 0,
            placedWalls := (getTileI s.grid (fromX - vx + d.1) (fromY - vy + d.2)).placedWalls }) ∧
      (∀ q : Int × Int,
        (∀ d ∈ offsets,
          ((fromX - vx + d.1 : Int), (fromY - vy + d.2 : Int)) ≠ q ∧
          ((toX - vx + d.1 : Int), (toY - vy + d.2 : Int)) ≠ q) →
        getTileI (handleTileMove s fromX fromY toX toY none).grid q.1 q.2
          = getTileI s.grid q.1 q.2)) := by
  have hred := handleTileMove_large s fromX fromY toX toY vx vy hne hlarge hvx hvy
  simp only [show ((GRID_SIZE : Nat) : Int) = 15 from by decide,
    show ((LARGE_ROOM_SIZE : Nat) : Int) = 5 from by decide] at hred
  refine ⟨?_, ?_, ?_⟩
  · intro hoob
    rw [hred, if_pos (by omega)]
  · intro hcol
    by_cases hoob : toX - vx < 0 ∨ toY - vy < 0 ∨
        toX - vx + (5 - 1) ≥ 15 ∨ toY - vy + (5 - 1) ≥ 15
    · rw [hred, if_pos hoob]
    · rw [hred, if_neg hoob, if_pos]
      rw [List.any_eq_true]
      obtain ⟨d, hd, hout, hocc⟩ := hcol
      refine ⟨d, hd, ?_⟩
      rw [Bool.and_eq_true]
      constructor
      · rw [Bool.not_eq_true', decide_eq_false_iff_not]
        exact hout
      · rw [bne_iff_ne]
        exact hocc
  · intro hoob hfree
    have hnoob : ¬(toX - vx < 0 ∨ toY - vy < 0 ∨
        toX - vx + (5 - 1) ≥ 15 ∨ toY - vy + (5 - 1) ≥ 15) := by omega
    have hnany : ¬((offsets.any (fun d =>
          !(decide (fromX - vx ≤ toX - vx + d.1 ∧
                    toX - vx + d.1 < fromX - vx + 5 ∧
                    fromY - vy ≤ toY - vy + d.2 ∧
                    toY - vy + d.2 < fromY - vy + 5)) &&
          ((getTileI s.grid (toX - vx + d.1) (toY - vy + d.2)).roomType != RoomType.None))) = true) := by
      rw [List.any_eq_true]
      push_neg
      intro d hd
      simp only [Bool.and_eq_true, Bool.not_eq_true', decide_eq_false_iff_not,
        bne_iff_ne, ne_eq]
      rintro ⟨hnot, hocc⟩
      exact hocc (hfree d hd hnot)
    rw [hred, if_neg hnoob, if_neg hnany]
    refine ⟨rfl, rfl, ?_, ?_, ?_⟩
    all_goals rw [show (applyEdit s (fun g0 => moveLargeRoomGrid g0 fromX fromY toX toY)).grid
        = moveLargeRoomGrid s.grid fromX fromY toX toY from rfl,
      moveLargeRoomGrid_eq s.grid fromX fromY toX toY vx vy hvx hvy]
    · -- target footprint cells
      intro d hd
      have hb := offsets_bounds d hd
      simp only [show ((LARGE_ROOM_SIZE : Nat) : Int) = 5 from by decide] at hb
      have hinT : inGrid (toX - vx + d.1, toY - vy + d.2) := by
        unfold inGrid GRID_SIZE
        dsimp only
        omega
      have hWF1 : WF (writeLoop s.grid offsets
          (fun d => (fromX - vx + d.1, fromY - vy + d.2))
          (fun d old =>
            { x := fromX - vx + d.1, y := fromY - vy + d.2,
              roomType := RoomType.None, rotation := 0,
              placedWalls := old.placedWalls })) := WF_writeLoop hWF _ _ _
      rw [getTileI_writeLoop_mem hWF1 (offsets_pos_nodup _ _) hd hinT]
      have hwalls : (getTileI (writeLoop s.grid offsets
          (fun d => (fromX - vx + d.1, fromY - vy + d.2))
          (fun d old =>
            { x := fromX - vx + d.1, y := fromY - vy + d.2,
              roomType := RoomType.None, rotation := 0,
              placedWalls := old.placedWalls })) (toX - vx + d.1) (toY - vy + d.2)).placedWalls
          = (getTileI s.grid (toX - vx + d.1) (toY - vy + d.2)).placedWalls := by
        by_cases hmem : ∃ e ∈ offsets,
            ((fromX - vx + e.1 : Int), (fromY - vy + e.2 : Int)) = (toX - vx + d.1, toY - vy + d.2)
        · obtain ⟨e, he, hpe⟩ := hmem
          have h2 := @getTileI_writeLoop_mem s.grid hWF offsets
            (fun d => (fromX - vx + d.1, fromY - vy + d.2))
            (fun d old =>
              { x := fromX - vx + d.1, y := fromY - vy + d.2,
                roomType := RoomType.None, rotation := 0,
                placedWalls := old.placedWalls })
            (offsets_pos_nodup (fromX - vx) (fromY - vy)) e he (by dsimp only; rw [hpe]; exact hinT)
          have h1e : fromX - vx + e.1 = toX - vx + d.1 := congrArg Prod.fst hpe
          have h2e : fromY - vy + e.2 = toY - vy + d.2 := congrArg Prod.snd hpe
          dsimp only at h2
          rw [h1e, h2e] at h2
          rw [h2]
        · push_neg at hmem
          rw [getTileI_writeLoop_notMem hmem]
      rw [hwalls]
    · -- vacated source cells outside the target footprint
      intro d hd hnt
      have hb := offsets_bounds d hd
      simp only [show ((LARGE_ROOM_SIZE : Nat) : Int) = 5 from by decide] at hb
      have hinS : inGrid (fromX - vx + d.1, fromY - vy + d.2) := by
        unfold inGrid GRID_SIZE
        dsimp only
        omega
      rw [getTileI_writeLoop_notMem hnt]
      exact getTileI_writeLoop_mem hWF (offsets_pos_nodup _ _) hd hinS
    · -- frame
      intro q hq
      rw [getTileI_writeLoop_notMem (fun d hd => (hq d hd).2)]
      exact getTileI_writeLoop_notMem (fun d hd => (hq d hd).1)

/-- C6 witness: shifting the Scenario A WaitingRoom one cell east by
dragging its center from (7,7) to (8,7) succeeds, making (10,9) the (4,4)
member of the room. -/
theorem C6_large_room_move_witness :
    (getTileI (handleTileMove ⟨scenarioAGrid, [], []⟩ 7 7 8 7 none).grid 10 9).roomType
      = RoomType.WaitingRoom ∧
    (getTileI (handleTileMove ⟨scenarioAGrid, [], []⟩ 7 7 8 7 none).grid 10 9).variantX
      = some 4 ∧
    (getTileI (handleTileMove ⟨scenarioAGrid, [], []⟩ 7 7 8 7 none).grid 10 9).variantY
      = some 4 := by
  have h := ((C6_large_room_move ⟨scenarioAGrid, [], []⟩ 7 7 8 7 2 2
    (by decide) (by decide) (by decide) (by decide) (by decide) (by decide)).2.2
    (by decide) (by decide)).2.2.1 (4, 4) (by decide)
  rw [show ((8 : Int) - 2 + (4 : Int)) = 10 from by decide,
      show ((7 : Int) - 2 + (4 : Int)) = 9 from by decide] at h
  rw [h]
  refine ⟨by decide, by decide, by decide⟩

/-- C7: every rejected move leaves the state (grid and both history
stacks) exactly as it was: a drop on the source cell itself, a wall move
whose target already holds a wall on the same edge, a wall move onto a
non-perimeter member of a large room, a large-room move whose target
footprint leaves the grid, a large-room move colliding outside the source
footprint, and a single-tile move onto an occupied cell. -/
theorem C7_move_rejection_frame (s : AppState) (fromX fromY toX toY : Int) :
    ((fromX = toX ∧ fromY = toY) →
      ∀ sub : Option Nat, handleTileMove s fromX fromY toX toY sub = s) ∧
    (∀ i : Nat, ∀ w : PlacedWall,
      ((getTileI s.grid fromX fromY).placedWalls.getD []).get? i = some w →
      ((getTileI s.grid toX toY).placedWalls.getD []).any
          (fun e => e.rotation == w.rotation) = true →
      handleTileMove s fromX fromY toX toY (some i) = s) ∧
    (∀ i : Nat, ∀ w : PlacedWall, ∀ vx vy : Int,
      ((getTileI s.grid fromX fromY).placedWalls.getD []).get? i = some w →
      ((getTileI s.grid toX toY).placedWalls.getD []).any
          (fun e => e.rotation == w.rotation) = false →
      App.isLargeRoomType (getTileI s.grid toX toY).roomType = true →
      (getTileI s.grid toX toY).variantX = some vx →
      (getTileI s.grid toX toY).variantY = some vy →
      ¬((w.rotation = 0 ∧ vy = 0) ∨ (w.rotation = 1 ∧ vx = 4) ∨
        (w.rotation = 2 ∧ vy = 4) ∨ (w.rotation = 3 ∧ vx = 0)) →
      handleTileMove s fromX fromY toX toY (some i) = s) ∧
    (∀ vx vy : Int,
      App.isLargeRoomType (getTileI s.grid fromX fromY).roomType = true →
      (getTileI s.grid fromX fromY).variantX = some vx →
      (getTileI s.grid fromX fromY).variantY = some vy →
      (toX - vx < 0 ∨ toY - vy < 0 ∨ toX - vx + 4 ≥ 15 ∨ toY - vy + 4 ≥ 15) →
      handleTileMove s fromX fromY toX toY none = s) ∧
    (∀ vx vy : Int,
      App.isLargeRoomType (getTileI s.grid fromX fromY).roomType = true →
      (getTileI s.grid fromX fromY).variantX = some vx →
      (getTileI s.grid fromX fromY).variantY = some vy →
      (∃ d ∈ offsets,
        ¬(fromX - vx ≤ toX - vx + d.1 ∧ toX - vx + d.1 < fromX - vx + 5 ∧
          fromY - vy ≤ toY - vy + d.2 ∧ toY - vy + d.2 < fromY - vy + 5) ∧
        (getTileI s.grid (toX - vx + d.1) (toY - vy + d.2)).roomType ≠ RoomType.None) →
      handleTileMove s fromX fromY toX toY none = s) ∧
    (App.isLargeRoomType (getTileI s.grid fromX fromY).roomType = false →
      (getTileI s.grid toX toY).roomType ≠ RoomType.None →
      handleTileMove s fromX fromY toX toY none = s) := by
  refine ⟨?_, ?_, ?_, ?_, ?_, ?_⟩
  · intro hft sub
    unfold handleTileMove
    rw [if_pos hft]
  · intro i w hw hconf
    by_cases hft : fromX = toX ∧ fromY = toY
    · unfold handleTileMove
      rw [if_pos hft]
    · unfold handleTileMove
      rw [if_neg hft]
      dsimp only
      rw [hw]
      dsimp only
      rw [if_pos hconf]
  · intro i w vx vy hw hconf hlargeT hvx hvy hnp
    by_cases hft : fromX = toX ∧ fromY = toY
    · unfold handleTileMove
      rw [if_pos hft]
    · unfold handleTileMove
      rw [if_neg hft]
      dsimp only
      rw [hw]
      dsimp only
      rw [if_neg (by rw [hconf]; exact Bool.false_ne_true)]
      rw [if_pos hlargeT, hvx, hvy]
      dsimp only
      rw [if_neg (fun hc => hnp ((perimBool_iff _ _ _).mp hc))]
  · intro vx vy hlarge hvx hvy hoob
    by_cases hft : fromX = toX ∧ fromY = toY
    · unfold handleTileMove
      rw [if_pos hft]
    · have hred := handleTileMove_large s fromX fromY toX toY vx vy hft hlarge hvx hvy
      simp only [show ((GRID_SIZE : Nat) : Int) = 15 from by decide,
        show ((LARGE_ROOM_SIZE : Nat) : Int) = 5 from by decide] at hred
      rw [hred, if_pos (by omega)]
  · intro vx vy hlarge hvx hvy hcol
    by_cases hft : fromX = toX ∧ fromY = toY
    · unfold handleTileMove
      rw [if_pos hft]
    · have hred := handleTileMove_large s fromX fromY toX toY vx vy hft hlarge hvx hvy
      simp only [show ((GRID_SIZE : Nat) : Int) = 15 from by decide,
        show ((LARGE_ROOM_SIZE : Nat) : Int) = 5 from by decide] at hred
      by_cases hoob : toX - vx < 0 ∨ toY - vy < 0 ∨
          toX - vx + (5 - 1) ≥ 15 ∨ toY - vy + (5 - 1) ≥ 15
      · rw [hred, if_pos hoob]
      · rw [hred, if_neg hoob, if_pos]
        rw [List.any_eq_true]
        obtain ⟨d, hd, hout, hocc⟩ := hcol
        refine ⟨d, hd, ?_⟩
        rw [Bool.and_eq_true]
        refine ⟨?_, ?_⟩
        · rw [Bool.not_eq_true', decide_eq_false_iff_not]
          exact hout
        · rw [bne_iff_ne]
          exact hocc
  · intro hlarge hocc
    by_cases hft : fromX = toX ∧ fromY = toY
    · unfold handleTileMove
      rw [if_pos hft]
    · unfold handleTileMove
      rw [if_neg hft]
      dsimp only
      rw [if_neg (by rw [hlarge]; exact Bool.false_ne_true)]
      rw [if_pos hocc]

/-- C7 witness: with a single OperatorySuite tile at (5,10) blocking the
row below the Scenario A room, dragging the room's center from (7,7) to
(7,8) is rejected and the whole editor state is unchanged. -/
theorem C7_move_rejection_frame_witness :
    handleTileMove
        ⟨handlePaint scenarioAGrid RoomType.OperatorySuite 5 10 none defaultBrush,
         [], [createInitialGrid]⟩ 7 7 7 8 none
      = ⟨handlePaint scenarioAGrid RoomType.OperatorySuite 5 10 none defaultBrush,
         [], [createInitialGrid]⟩ := by
  have h := (C7_move_rejection_frame
    ⟨handlePaint scenarioAGrid RoomType.OperatorySuite 5 10 none defaultBrush,
     [], [createInitialGrid]⟩ 7 7 7 8).2.2.2.2.1
    2 2 (by decide) (by decide) (by decide)
  exact h ⟨(0, 4), by decide, by decide, by decide⟩
